import Mathlib

/-!
Verification development for the labelpadega product-analysis pages.

The definitions below are a shallow embedding of the Python code in
src/final_labelpadega_project/project/pages/trial.py and
src/final_labelpadega_project/project/pages/barcodescanner.py:

* `PyVal` models dynamically typed JSON-ish Python values (strings,
  numbers, lists, dicts, None).  Python floats/ints are modeled as ℚ.
* `dLookup`, `dictSet`, `dictUpdate` model Python dict access,
  item assignment, and `dict.update` on insertion-ordered dicts.
* `FS` models the on-disk cache directory, with fault-injection flags
  for unreadable and unwritable files; `loadCache`/`saveCache` embed
  `DataFetcher._load_cache`/`_save_cache` (trial.py, also the shape of
  `AIAnalyzer._load_cache`/`_save_cache`), and `bsLoadCache` embeds
  `OpenFoodFactsFetcher._load_cache` (barcodescanner.py).
* `dfGet` embeds `DataFetcher._get` (the retry loop), and
  `fetchOFF`/`fetchUSDA`/`processBarcode` embed
  `DataFetcher.fetch_from_open_food_facts`, `DataFetcher.fetch_from_usda`
  and `main.process_barcode` of trial.py, instrumented with a running
  count of network requests issued.

The md5 content hash used by the Python code for cache file names is
modeled as an injective encoding of the hashed string (hash collisions
are out of scope).
-/

/-- A dynamically typed Python/JSON value.  Numbers (Python int/float)
are modeled as rationals; the claims verified here do not depend on
floating-point rounding. -/
inductive PyVal : Type where
  | vNone : PyVal
  | vStr : String → PyVal
  | vNum : ℚ → PyVal
  | vList : List PyVal → PyVal
  | vDict : List (String × PyVal) → PyVal

/-- Python truthiness (`bool(v)`): None, empty string, zero, empty list
and empty dict are falsy. -/
def pyTruthy : PyVal → Bool
  | .vNone => false
  | .vStr s => !s.isEmpty
  | .vNum q => decide (q ≠ 0)
  | .vList l => !l.isEmpty
  | .vDict l => !l.isEmpty

/-- Truthiness of an optional value (`d.get(k)` returns None when the
key is absent, and None is falsy). -/
def pyTruthyOpt : Option PyVal → Bool
  | some v => pyTruthy v
  | none => false

/-- Python `not v`. -/
def pyFalsy (v : PyVal) : Bool := !pyTruthy v

/-- First-match lookup in an insertion-ordered dict (`d.get(k)` /
`k in d`, keys are unique in real Python dicts). -/
def dLookup {α : Type} (k : String) : List (String × α) → Option α
  | [] => none
  | (k1, v) :: rest => if k1 = k then some v else dLookup k rest

/-- `d.get(k, default)`. -/
def dGetD {α : Type} (d : List (String × α)) (k : String) (dflt : α) : α :=
  (dLookup k d).getD dflt

/-- Python dict item assignment `d[k] = v`: replaces the value of an
existing key in place, otherwise appends the new key at the end. -/
def dictSet {α : Type} : List (String × α) → String → α → List (String × α)
  | [], k, v => [(k, v)]
  | (k1, v1) :: rest, k, v =>
      if k1 = k then (k1, v) :: rest else (k1, v1) :: dictSet rest k v

/-- Python `d.update(new)`: item-assign every pair of `new` into `d`,
in order.  Keys already present in `d` are overwritten. -/
def dictUpdate {α : Type} : List (String × α) → List (String × α) → List (String × α)
  | d, [] => d
  | d, (k, v) :: rest => dictUpdate (dictSet d k v) rest

theorem dLookup_dictSet {α : Type} (d : List (String × α)) (k : String) (v : α)
    (q : String) :
    dLookup q (dictSet d k v) = if k = q then some v else dLookup q d := by
  induction d with
  | nil => simp [dictSet, dLookup]
  | cons hd tl ih =>
      obtain ⟨k1, v1⟩ := hd
      by_cases h1 : k1 = k
      · subst h1
        by_cases h2 : k1 = q <;> simp [dictSet, dLookup, h2]
      · by_cases h2 : k1 = q
        · subst h2
          simp [dictSet, dLookup, h1]
          rw [if_neg (fun h => h1 h.symm)]
        · simp [dictSet, dLookup, h1, h2, ih]

theorem dLookup_eq_none_of_not_mem {α : Type} (l : List (String × α)) (k : String)
    (h : k ∉ l.map Prod.fst) : dLookup k l = none := by
  induction l with
  | nil => rfl
  | cons hd tl ih =>
      obtain ⟨k1, v1⟩ := hd
      simp only [List.map_cons, List.mem_cons] at h
      push_neg at h
      simp [dLookup, Ne.symm h.1, ih h.2]

theorem dLookup_dictUpdate {α : Type} (new : List (String × α)) (d : List (String × α))
    (k : String) (hnd : (new.map Prod.fst).Nodup) :
    dLookup k (dictUpdate d new) = (dLookup k new).or (dLookup k d) := by
  induction new generalizing d with
  | nil => simp [dictUpdate, dLookup]
  | cons hd tl ih =>
      obtain ⟨k0, v0⟩ := hd
      simp only [List.map_cons, List.nodup_cons] at hnd
      by_cases hk : k0 = k
      · subst hk
        have htl : dLookup k0 tl = none := dLookup_eq_none_of_not_mem tl k0 hnd.1
        simp [dictUpdate, dLookup, ih (dictSet d k0 v0) hnd.2, dLookup_dictSet, htl]
      · simp [dictUpdate, dLookup, ih _ hnd.2, dLookup_dictSet, hk]

/-! ## Cache layer (CacheStore) -/

/-- One on-disk cache file, as written by `_save_cache`:
`{'data': ..., 'cache_time': ...}` in trial.py (key names
`'product'`/`'timestamp'` in barcodescanner.py; same shape). -/
structure CacheFile : Type where
  payload : PyVal
  storedAt : Int

/-- The cache directory plus fault injection: `failRead p` models
`open(p)`/`json.load` raising on read (I/O or deserialization error),
`failWrite p` models `open(p,'w')`/`json.dump` raising on write. -/
structure FS : Type where
  files : List (String × CacheFile)
  failRead : String → Bool
  failWrite : String → Bool

/-- `DataFetcher._cache_path`: `f"{src}_{md5(key).hexdigest()}.json"`;
the md5 digest is modeled as the identity encoding of the key (an
injective stand-in for the collision-free hash). -/
def cachePath (key src : String) : String := src ++ "_" ++ key

/-- `OpenFoodFactsFetcher._get_cache_key`: `md5(f"off_{barcode}")`,
again with the digest modeled injectively.  The `bs_` marker keeps the
barcodescanner.py cache namespace distinct from trial.py's. -/
def bsCachePath (barcode : String) : String := "bs_off_" ++ barcode

/-- The `try:` body of `DataFetcher._load_cache` (trial.py lines
706-714): open the file, deserialize, and return the payload if it is
younger than `max_age` seconds (`<=` comparison).  A missing file is a
plain miss (`os.path.exists` is outside the `try:` and cannot raise);
a failing read raises. -/
def loadCacheBody (fs : FS) (key src : String) (now maxAge : Int) :
    Except String (Option PyVal) :=
  let p := cachePath key src
  match dLookup p fs.files with
  | none => .ok none
  | some file =>
      if fs.failRead p then .error "io error"
      else if now - file.storedAt ≤ maxAge then .ok (some file.payload)
      else .ok none

/-- `DataFetcher._load_cache`: the `except: pass` turns every raised
error into the miss result `None`. -/
def loadCache (fs : FS) (key src : String) (now maxAge : Int) : Option PyVal :=
  match loadCacheBody fs key src now maxAge with
  | .ok r => r
  | .error _ => none

/-- The `try:` body of `DataFetcher._save_cache` (trial.py lines
716-720): write `{'data': data, 'cache_time': now}`, overwriting any
existing entry for the same path; a failing write raises. -/
def saveCacheBody (fs : FS) (key src : String) (payload : PyVal) (now : Int) :
    Except String FS :=
  let p := cachePath key src
  if fs.failWrite p then .error "io error"
  else .ok { fs with files := dictSet fs.files p ⟨payload, now⟩ }

/-- `DataFetcher._save_cache`: `except: pass` swallows write failures,
leaving the directory unchanged. -/
def saveCache (fs : FS) (key src : String) (payload : PyVal) (now : Int) : FS :=
  match saveCacheBody fs key src payload now with
  | .ok fs1 => fs1
  | .error _ => fs

/-- The `try:` body of `OpenFoodFactsFetcher._load_cache`
(barcodescanner.py lines 237-247).  Note the strict `<` in
`time.time() - data.get('timestamp', 0) < 86400`. -/
def bsLoadCacheBody (fs : FS) (barcode : String) (now : Int) :
    Except String (Option PyVal) :=
  let p := bsCachePath barcode
  match dLookup p fs.files with
  | none => .ok none
  | some file =>
      if fs.failRead p then .error "io error"
      else if now - file.storedAt < 86400 then .ok (some file.payload)
      else .ok none

/-- `OpenFoodFactsFetcher._load_cache` with its `except: pass`. -/
def bsLoadCache (fs : FS) (barcode : String) (now : Int) : Option PyVal :=
  match bsLoadCacheBody fs barcode now with
  | .ok r => r
  | .error _ => none

/-- A cache directory with no entries and healthy storage. -/
def fsEmpty : FS := ⟨[], fun _ => false, fun _ => false⟩

/-! ## Network layer and source fetchers (ProductResolver) -/

/-- `DataFetcher._get` (trial.py lines 722-730): three attempts; on the
failures before the last one sleep `1*(i+1)` seconds (1s then 2s), on
the third failure re-raise.  The model takes the network as a stream of
per-request responses `net` indexed by a running request counter `c`,
and returns the result, the new counter, and the list of sleeps
performed. -/
def dfGet (net : Nat → Except String PyVal) (c : Nat) :
    Except String PyVal × Nat × List Nat :=
  match net c with
  | .ok v => (.ok v, c + 1, [])
  | .error _ =>
      match net (c + 1) with
      | .ok v => (.ok v, c + 2, [1])
      | .error _ =>
          match net (c + 2) with
          | .ok v => (.ok v, c + 3, [1, 2])
          | .error e => (.error e, c + 3, [1, 2])

/-- The 7-tuple returned by `fetch_from_open_food_facts` /
`fetch_from_usda` / `_extract_off` / `_extract_usda`:
`(name, brand, category, origin, details, image_url, allergens)`. -/
structure FetchTuple : Type where
  pname : PyVal
  bname : PyVal
  cat : PyVal
  orig : PyVal
  det : PyVal
  img : PyVal
  alg : PyVal

/-- `(None,)*7`, the failure tuple. -/
def noneTuple : FetchTuple := ⟨.vNone, .vNone, .vNone, .vNone, .vNone, .vNone, .vNone⟩

/-- Python `str.capitalize()`: first character upper-cased, the rest
lower-cased. -/
def pyCapitalize (s : String) : String :=
  match s.toList with
  | [] => ""
  | c :: rest => String.mk (c.toUpper :: rest.map Char.toLower)

/-- `[a.replace("en:","") for a in tags]` where every element is
expected to be a string (a non-string element raises AttributeError in
Python; a non-list container raises TypeError — string containers,
which Python would iterate character-wise, are not produced by the
sources and are modeled as the same raised error). -/
def stripEnTags (tags : PyVal) : Except String (List PyVal) :=
  match tags with
  | .vList l =>
      l.mapM fun a =>
        match a with
        | .vStr s => Except.ok (PyVal.vStr (s.replace "en:" ""))
        | _ => Except.error "AttributeError"
  | _ => Except.error "TypeError"

/-- `[i.get("text","") for i in p.get("ingredients",[])]`. -/
def ingredientTexts (items : PyVal) : Except String (List PyVal) :=
  match items with
  | .vList l =>
      l.mapM fun i =>
        match i with
        | .vDict idict => Except.ok (dGetD idict "text" (.vStr ""))
        | _ => Except.error "AttributeError"
  | _ => Except.error "TypeError"

/-- The `category` expression of `_extract_off`:
`(p.get("categories_tags",["unknown"])[0]).replace("en:","").capitalize()
if p.get("categories_tags") else "Unknown"`. -/
def offCategory (p : List (String × PyVal)) : Except String PyVal :=
  if pyTruthyOpt (dLookup "categories_tags" p) then
    match dGetD p "categories_tags" (.vList [.vStr "unknown"]) with
    | .vList (.vStr s :: _) => .ok (.vStr (pyCapitalize (s.replace "en:" "")))
    | .vList (_ :: _) => .error "AttributeError"
    | .vList [] => .error "IndexError"
    | .vStr s =>
        match s.toList with
        | c :: _ => .ok (.vStr (pyCapitalize (String.mk [c])))
        | [] => .error "IndexError"
    | _ => .error "TypeError"
  else .ok (.vStr "Unknown")

/-- `data.get("status") == 1` (Python numeric equality: `1 == 1.0`). -/
def statusIsOne (d : List (String × PyVal)) : Bool :=
  match dLookup "status" d with
  | some (.vNum q) => decide (q = 1)
  | _ => false

/-- `DataFetcher._extract_off` (trial.py lines 745-771).  This function
has no `try:` of its own: any error raised while destructuring the
response propagates to the caller (`data["product"]` raises KeyError
when the key is missing). -/
def extractOff (data : PyVal) : Except String FetchTuple :=
  match data with
  | .vDict d =>
      if !statusIsOne d then .ok noneTuple
      else
        match dLookup "product" d with
        | some (.vDict p) => do
            let name := dGetD p "product_name" (.vStr "Unknown Product")
            let brand := dGetD p "brands" (.vStr "Unknown Brand")
            let category ← offCategory p
            let origin := dGetD p "countries" (.vStr "Unknown")
            let img := dGetD p "image_url" .vNone
            let allergens ← stripEnTags (dGetD p "allergens_tags" (.vList []))
            let ingrList ← ingredientTexts (dGetD p "ingredients" (.vList []))
            let additives ← stripEnTags (dGetD p "additives_tags" (.vList []))
            let details : List (String × PyVal) :=
              [("ingredients", dGetD p "ingredients_text" (.vStr "Not available")),
               ("ingredients_list", .vList ingrList),
               ("nutriments", dGetD p "nutriments" (.vDict [])),
               ("nutrition_grades", dGetD p "nutrition_grades" (.vStr "")),
               ("nova_group", dGetD p "nova_group" (.vStr "")),
               ("ecoscore_grade", dGetD p "ecoscore_grade" (.vStr "")),
               ("packaging", dGetD p "packaging" (.vStr "Not specified")),
               ("manufacturing_places", dGetD p "manufacturing_places" (.vStr "Not specified")),
               ("additives_tags", .vList additives),
               ("labels", dGetD p "labels" (.vStr "")),
               ("allergens", .vList allergens),
               ("serving_size", dGetD p "serving_size" (.vStr "Not specified")),
               ("stores", dGetD p "stores" (.vStr "Not specified")),
               ("image_url", img),
               ("traces", dGetD p "traces" (.vStr ""))]
            return ⟨name, brand, category, origin, .vDict details, img, .vList allergens⟩
        | some _ => .error "AttributeError"
        | none => .error "KeyError"
  | _ => .error "AttributeError"

/-- The `ndisp` loop of `DataFetcher._extract_usda`: for every nutrient
entry with both a `nutrientName` and a `value`, set
`ndisp[name] = {"value": value, "unit": unitName or ""}`.  Entries that
are not dicts raise; a non-string `nutrientName` would produce a
non-string dict key, which this String-keyed model treats as the same
raised error (the USDA schema always sends strings). -/
def usdaNdisp (items : List PyVal) : Except String (List (String × PyVal)) :=
  items.foldlM
    (fun acc n =>
      match n with
      | .vDict nd =>
          match dLookup "nutrientName" nd, dLookup "value" nd with
          | some (.vStr nm), some v =>
              Except.ok (dictSet acc nm
                (.vDict [("value", v), ("unit", dGetD nd "unitName" (.vStr ""))]))
          | some _, some _ => Except.error "TypeError"
          | _, _ => Except.ok acc
      | _ => Except.error "AttributeError")
    []

/-- The `try:` body of `DataFetcher._extract_usda` (trial.py lines
789-817). -/
def extractUsdaBody (combined : PyVal) : Except String FetchTuple := do
  match combined with
  | .vDict cd =>
      let search := dGetD cd "search_result" (.vDict [])
      let detail := dGetD cd "detail" (.vDict [])
      match search with
      | .vDict sd =>
          if !pyTruthyOpt (dLookup "foods" sd) then return noneTuple
          else
            match dLookup "foods" sd with
            | some (.vList (food :: _)) =>
                match food, detail with
                | .vDict fd, .vDict dd =>
                    let name := dGetD fd "description" (.vStr "Unknown")
                    let brand := dGetD fd "brandOwner" (.vStr "Unknown Brand")
                    let cat := dGetD fd "foodCategory" (.vStr "Unknown")
                    let orig := dGetD dd "marketCountry" (.vStr "Unknown")
                    let ings := dGetD dd "ingredients" (.vStr "Not available")
                    let foodNutrients := dGetD dd "foodNutrients" (.vList [])
                    match foodNutrients with
                    | .vList fnl =>
                        let ndisp ← usdaNdisp fnl
                        let details : List (String × PyVal) :=
                          [("ingredients", ings),
                           ("foodNutrients", foodNutrients),
                           ("nutrients_display", .vDict ndisp),
                           ("ingredients_list", .vList []),
                           ("serving_size", dGetD dd "servingSize" (.vStr "Not specified")),
                           ("serving_unit", dGetD dd "servingSizeUnit" (.vStr "")),
                           ("additives_tags", .vList []),
                           ("labels", .vStr ""),
                           ("packaging", .vStr "Not specified"),
                           ("ecoscore_grade", .vStr ""),
                           ("nutrition_grades", .vStr ""),
                           ("nova_group", .vStr ""),
                           ("nutriments", .vDict []),
                           ("allergens", .vList []),
                           ("traces", .vStr ""),
                           ("image_url", .vNone)]
                        return ⟨name, brand, cat, orig, .vDict details, .vNone, .vList []⟩
                    | _ => .error "TypeError"
                | _, _ => .error "AttributeError"
            | _ => .error "TypeError"
      | _ => .error "AttributeError"
  | _ => .error "AttributeError"

/-- `DataFetcher._extract_usda`: its internal `try/except` converts any
raised error into `(None,)*7`. -/
def extractUsda (combined : PyVal) : FetchTuple :=
  match extractUsdaBody combined with
  | .ok t => t
  | .error _ => noneTuple

/-- The network path of `fetch_from_open_food_facts` (the `try:` block,
trial.py lines 735-743): one `_get`, cache write plus extraction only
when `status == 1`; both a raised `_get` error and a raised extraction
error are caught by the `except`, which returns `(None,)*7`. -/
def fetchOFFNet (net : Nat → Except String PyVal) (c : Nat) (fs : FS)
    (bc : String) (now : Int) : Except String FetchTuple × Nat × FS :=
  match dfGet net c with
  | (.ok data, c1, _) =>
      match data with
      | .vDict d =>
          if statusIsOne d then
            let fs1 := saveCache fs bc "off" data now
            match extractOff data with
            | .ok t => (.ok t, c1, fs1)
            | .error _ => (.ok noneTuple, c1, fs1)
          else (.ok noneTuple, c1, fs)
      | _ => (.ok noneTuple, c1, fs)
  | (.error _, c1, _) => (.ok noneTuple, c1, fs)

/-- `DataFetcher.fetch_from_open_food_facts` (trial.py lines 732-743).
The cache-hit branch (`if cached: return self._extract_off(cached)`) is
outside the `try:`, so an extraction error on cached data propagates to
the caller — hence the `Except` result. -/
def fetchOFF (net : Nat → Except String PyVal) (c : Nat) (fs : FS)
    (bc : String) (now : Int) : Except String FetchTuple × Nat × FS :=
  match loadCache fs bc "off" now 86400 with
  | some v =>
      if pyTruthy v then (extractOff v, c, fs)
      else fetchOFFNet net c fs bc now
  | none => fetchOFFNet net c fs bc now

/-- The network path of `fetch_from_usda` (the `try:` block, trial.py
lines 776-787): a search `_get`, then — only when `search["foods"]` is
truthy and `foods[0]["fdcId"]` exists — a detail `_get`, a cache write
of the combined payload, and extraction.  Raised errors (exhausted
retries, missing `fdcId`, non-dict structure) are caught by the
`except`, which returns `(None,)*7`. -/
def fetchUSDANet (net : Nat → Except String PyVal) (c : Nat) (fs : FS)
    (bc : String) (now : Int) : FetchTuple × Nat × FS :=
  match dfGet net c with
  | (.error _, c1, _) => (noneTuple, c1, fs)
  | (.ok search, c1, _) =>
      match search with
      | .vDict sd =>
          if !pyTruthyOpt (dLookup "foods" sd) then (noneTuple, c1, fs)
          else
            match dLookup "foods" sd with
            | some (.vList (.vDict fd :: _)) =>
                match dLookup "fdcId" fd with
                | some _ =>
                    match dfGet net c1 with
                    | (.error _, c2, _) => (noneTuple, c2, fs)
                    | (.ok detail, c2, _) =>
                        let combined : PyVal :=
                          .vDict [("search_result", search), ("detail", detail)]
                        let fs1 := saveCache fs bc "usda" combined now
                        (extractUsda combined, c2, fs1)
                | none => (noneTuple, c1, fs)
            | _ => (noneTuple, c1, fs)
      | _ => (noneTuple, c1, fs)

/-- `DataFetcher.fetch_from_usda` (trial.py lines 773-787).  The
cache-hit branch calls `_extract_usda`, whose internal `try` makes it
total. -/
def fetchUSDA (net : Nat → Except String PyVal) (c : Nat) (fs : FS)
    (bc : String) (now : Int) : FetchTuple × Nat × FS :=
  match loadCache fs bc "usda" now 86400 with
  | some v =>
      if pyTruthy v then (extractUsda v, c, fs)
      else fetchUSDANet net c fs bc now
  | none => fetchUSDANet net c fs bc now

/-- The product dict built by `process_barcode` on success (trial.py
lines 1439-1443). -/
def buildProductObj (t : FetchTuple) (bc : String) : PyVal :=
  .vDict [("product_name", t.pname),
          ("brand_name", t.bname),
          ("category", t.cat),
          ("origin", t.orig),
          ("details", t.det),
          ("image_url", t.img),
          ("allergens", t.alg),
          ("barcode", .vStr bc)]

/-- `main.process_barcode` (trial.py lines 1431-1450), stripped of the
Streamlit UI effects: try OpenFoodFacts; if the returned name is falsy,
try USDA; if still falsy, report NotFound (`st.error`, modeled as
`none`); otherwise build the product dict.  The result is `Except`
because a cache-hit extraction error in `fetch_from_open_food_facts`
would propagate uncaught. -/
def processBarcode (net : Nat → Except String PyVal) (c : Nat) (fs : FS)
    (bc : String) (now : Int) : Except String (Option PyVal) × Nat × FS :=
  let r := fetchOFF net c fs bc now
  match r.1 with
  | .error e => (.error e, r.2.1, r.2.2)
  | .ok t =>
      if pyFalsy t.pname then
        let ru := fetchUSDA net r.2.1 r.2.2 bc now
        if pyFalsy ru.1.pname then (.ok none, ru.2.1, ru.2.2)
        else (.ok (some (buildProductObj ru.1 bc)), ru.2.1, ru.2.2)
      else (.ok (some (buildProductObj t bc)), r.2.1, r.2.2)

/-! ## Supplementary nutrient enrichment (barcodescanner.py) -/

/-- Python `needle in hay` for strings (substring containment). -/
def strContains (needle hay : String) : Bool :=
  let nl := needle.toList
  let hl := hay.toList
  (List.range (hl.length + 1)).any fun start => (hl.drop start).take nl.length == nl

/-- One iteration of the `for nutrient in food.get("foodNutrients", [])`
loop of `USDAFetcher.fetch_nutrition` (barcodescanner.py lines
334-352): map a USDA nutrient entry onto an OpenFoodFacts-style
nutrient key via the `if/elif` substring chain; the Sodium branch
rescales `value / 1000 * 2.5`. -/
def usdaNutrientStep (acc : List (String × PyVal)) (n : PyVal) :
    Except String (List (String × PyVal)) :=
  match n with
  | .vDict nd =>
      match dGetD nd "nutrientName" (.vStr "") with
      | .vStr name =>
          let value := dGetD nd "value" (.vNum 0)
          let unit := dGetD nd "unitName" (.vStr "")
          match (if strContains "Energy" name then
                   match unit with
                   | .vStr us => Except.ok (strContains "KCAL" us.toUpper)
                   | _ => Except.error "AttributeError"
                 else Except.ok false) with
          | .error e => .error e
          | .ok cond1 =>
              if cond1 then .ok (dictSet acc "energy-kcal_100g" value)
              else if strContains "Protein" name then
                .ok (dictSet acc "proteins_100g" value)
              else if strContains "Carbohydrate" name then
                .ok (dictSet acc "carbohydrates_100g" value)
              else if strContains "Total lipid" name || strContains "Fat" name then
                .ok (dictSet acc "fat_100g" value)
              else if strContains "Sugars" name then
                .ok (dictSet acc "sugars_100g" value)
              else if strContains "Fiber" name then
                .ok (dictSet acc "fiber_100g" value)
              else if strContains "Sodium" name then
                match value with
                | .vNum q => .ok (dictSet acc "salt_100g" (.vNum (q / 1000 * 2.5)))
                | _ => .error "TypeError"
              else .ok acc
      | _ => .error "TypeError"
  | _ => .error "AttributeError"

/-- The nutrient mapping performed by `USDAFetcher.fetch_nutrition` on
the `foodNutrients` list of the first matching food; the surrounding
`try/except` returns `{}` on any raised error. -/
def fetchNutritionMap (foodNutrients : List PyVal) : List (String × PyVal) :=
  match foodNutrients.foldlM usdaNutrientStep [] with
  | .ok d => d
  | .error _ => []

/-- The supplementary-nutrient enrichment merge of `main`
(barcodescanner.py lines 940-943):

```
if not product.get('nutrients') or len(product.get('nutrients', {})) < 3:
    usda_nutrients = usda_fetcher.fetch_nutrition(product.get('name', ''))
    if usda_nutrients:
        product['nutrients'].update(usda_nutrients)
```

`usdaNutrients` stands for the `fetch_nutrition` result.  A record
whose `'nutrients'` value is missing or not a dict would raise
(KeyError/AttributeError) in Python; records built by `fetch_product`
always carry a dict, and that corner is modeled as the identity. -/
def enrichProduct (product : List (String × PyVal))
    (usdaNutrients : List (String × PyVal)) : List (String × PyVal) :=
  let nutrVal := dLookup "nutrients" product
  let nutrLen : Nat :=
    match dGetD product "nutrients" (.vDict []) with
    | .vDict d => d.length
    | .vList l => l.length
    | .vStr s2 => s2.length
    | _ => 0
  if !pyTruthyOpt nutrVal || nutrLen < 3 then
    if usdaNutrients.isEmpty then product
    else
      match nutrVal with
      | some (.vDict d) => dictSet product "nutrients" (.vDict (dictUpdate d usdaNutrients))
      | _ => product
  else product

/-- The `'nutrients'` mapping of a product record (empty for the
unreachable non-dict corner). -/
def productNutrients (product : List (String × PyVal)) : List (String × PyVal) :=
  match dLookup "nutrients" product with
  | some (.vDict d) => d
  | _ => []

/-! ## Rating extraction (AIAnalyzer) -/

/-- Numeric value of a digit run. -/
def digitsVal (l : List Char) : ℕ :=
  l.foldl (fun a c => a * 10 + (c.toNat - 48)) 0

/-- Strip a literal prefix from a character list. -/
def listStrip (cs : List Char) (pre : String) : Option (List Char) :=
  let pl := pre.toList
  if cs.take pl.length == pl then some (cs.drop pl.length) else none

/-- The candidate values of the group `(\d+(?:\.\d+)?)` starting at
`cs`, paired with the rest of the input, in the order Python regex
backtracking explores them: the greedy integer part with the greedy
fraction first, then shorter fractions, then no fraction, then shorter
integer parts. -/
def numCandidates (cs : List Char) : List (ℚ × List Char) :=
  let k := (cs.takeWhile Char.isDigit).length
  if k = 0 then []
  else
    (List.range k).flatMap fun j =>
      let i := k - j
      let ip : ℚ := (digitsVal (cs.take i) : ℚ)
      let rest := cs.drop i
      if i = k then
        (match rest with
         | '.' :: r2 =>
             let m := (r2.takeWhile Char.isDigit).length
             (List.range m).map fun j2 =>
               let fm := m - j2
               (ip + (digitsVal (r2.take fm) : ℚ) / ((10 : ℚ) ^ fm), r2.drop fm)
         | _ => []) ++ [(ip, rest)]
      else [(ip, rest)]

/-- Does `\s*(?:\/|of|out of)?\s*10` match a prefix of `cs`?  The
whitespace stars can consume maximally without loss (the separator
alternatives and the literal `10` start with non-space characters). -/
def ratingSuffixOk (cs : List Char) : Bool :=
  let c1 := cs.dropWhile Char.isWhitespace
  let cands : List (List Char) :=
    (match listStrip c1 "/" with | some r => [r] | none => []) ++
    (match listStrip c1 "of" with | some r => [r] | none => []) ++
    (match listStrip c1 "out of" with | some r => [r] | none => []) ++
    [c1]
  cands.any fun r => (r.dropWhile Char.isWhitespace).take 2 == ['1', '0']

/-- `re.search` of the pattern
`(?:rate|rating|score)[^\d]*(\d+(?:\.\d+)?)\s*(?:\/|of|out of)?\s*10`
with `re.IGNORECASE` (modeled by lower-casing the subject): scan start
positions left to right; at each, try the keyword alternatives; skip
the non-digits after the keyword (`[^\d]*` cannot cross a digit, so the
digit run is the first one after the keyword), and return the first
number-group candidate whose remainder matches the tail of the
pattern. -/
def ratingSearch (s : String) : Option ℚ :=
  let cs := s.toList.map Char.toLower
  (List.range (cs.length + 1)).findSome? fun start =>
    let t := cs.drop start
    ["rate", "rating", "score"].findSome? fun kw =>
      match listStrip t kw with
      | none => none
      | some rest =>
          let afterNd := rest.dropWhile (fun c => !c.isDigit)
          (numCandidates afterNd).findSome? fun cand =>
            if ratingSuffixOk cand.2 then some cand.1 else none

/-- `AIAnalyzer._extract_rating` (trial.py lines 864-869): take the
matched group as a number; keep it only if `0 <= v <= 10`, otherwise —
and when nothing matched — return the default 5.0. -/
def extract_rating (text : String) : ℚ :=
  match ratingSearch text with
  | some v => if 0 ≤ v ∧ v ≤ 10 then v else 5
  | none => 5

/-! ## Claim theorems -/

/-- C10: for every input text, the extracted rating lies in the closed
interval [0, 10], and when no rating pattern is found in the text the
default value 5.0 is returned. -/
theorem c10_extract_rating_bounded (text : String) :
    (0 ≤ extract_rating text ∧ extract_rating text ≤ 10) ∧
    (ratingSearch text = none → extract_rating text = 5) := by
  constructor
  · unfold extract_rating
    cases h : ratingSearch text with
    | none => norm_num
    | some v =>
        by_cases hb : 0 ≤ v ∧ v ≤ 10
        · simp only [hb, if_true]
          exact hb
        · simp [hb]; norm_num
  · intro h
    simp [extract_rating, h]

theorem c10_extract_rating_bounded_witness :
    extract_rating "no grade given here" = 5 :=
  (c10_extract_rating_bounded "no grade given here").2 (by rfl)

/-- C3: on healthy storage, a cache put immediately followed by a cache
get for the same namespace and logical key returns the stored payload
(for any positive TTL). -/
theorem c3_put_then_get (fs : FS) (key src : String) (payload : PyVal)
    (now ttl : Int) (httl : 0 < ttl)
    (hw : fs.failWrite (cachePath key src) = false)
    (hr : fs.failRead (cachePath key src) = false) :
    loadCache (saveCache fs key src payload now) key src now ttl = some payload := by
  unfold saveCache saveCacheBody
  simp only [hw, Bool.false_eq_true, if_false]
  unfold loadCache loadCacheBody
  have h0 : now - now ≤ ttl := by omega
  simp [dLookup_dictSet, hr, h0, httl.le]

theorem c3_put_then_get_witness :
    loadCache (saveCache fsEmpty "737628064502" "off" (.vStr "payload") 50)
      "737628064502" "off" 50 86400 = some (.vStr "payload") :=
  c3_put_then_get fsEmpty "737628064502" "off" (.vStr "payload") 50 86400
    (by norm_num) rfl rfl

/-- C8: storage errors are absorbed inside the cache layer: a raising
read behaves exactly like a cache miss (for both the trial.py and the
barcodescanner.py loader), a raising write leaves the directory — and
the caller's control flow — unchanged, and in both cases the raised
error is caught rather than propagated. -/
theorem c8_cache_fails_soft (fs : FS) (key src bc : String) (payload : PyVal)
    (now maxAge : Int) :
    (fs.failRead (cachePath key src) = true →
       loadCache fs key src now maxAge = none) ∧
    (∀ e, loadCacheBody fs key src now maxAge = .error e →
       loadCache fs key src now maxAge = none) ∧
    (fs.failWrite (cachePath key src) = true →
       saveCache fs key src payload now = fs) ∧
    (∀ e, saveCacheBody fs key src payload now = .error e →
       saveCache fs key src payload now = fs) ∧
    (fs.failRead (bsCachePath bc) = true → bsLoadCache fs bc now = none) := by
  refine ⟨?_, ?_, ?_, ?_, ?_⟩
  · intro h
    unfold loadCache loadCacheBody
    cases hl : dLookup (cachePath key src) fs.files <;> simp [h, hl]
  · intro e h
    unfold loadCache
    rw [h]
  · intro h
    unfold saveCache saveCacheBody
    simp [h]
  · intro e h
    unfold saveCache
    rw [h]
  · intro h
    unfold bsLoadCache bsLoadCacheBody
    cases hl : dLookup (bsCachePath bc) fs.files <;> simp [h, hl]

/-- A directory whose storage medium always raises. -/
def fsBroken : FS := ⟨[("off_k", ⟨.vStr "x", 0⟩), ("bs_off_b", ⟨.vStr "y", 0⟩)],
  fun _ => true, fun _ => true⟩

theorem c8_cache_fails_soft_witness :
    loadCache fsBroken "k" "off" 10 86400 = none ∧
    saveCache fsBroken "k" "off" (.vStr "z") 10 = fsBroken ∧
    bsLoadCache fsBroken "b" 10 = none :=
  ⟨(c8_cache_fails_soft fsBroken "k" "off" "b" (.vStr "z") 10 86400).1 rfl,
   (c8_cache_fails_soft fsBroken "k" "off" "b" (.vStr "z") 10 86400).2.2.1 rfl,
   (c8_cache_fails_soft fsBroken "k" "off" "b" (.vStr "z") 10 86400).2.2.2.2 rfl⟩

/-- C2 (counterexample): the barcodescanner cache treats an entry whose
age is exactly the TTL (now - stored_at = 86400 ≤ ttl_seconds) as
absent, because its validity comparison is strict (`<`), contradicting
the claimed `now - stored_at <= ttl_seconds` validity rule. -/
def fsBoundary : FS := ⟨[("bs_off_b", ⟨.vStr "x", 0⟩)], fun _ => false, fun _ => false⟩

theorem c2_counterexample :
    dLookup (bsCachePath "b") fsBoundary.files = some ⟨.vStr "x", 0⟩ ∧
    fsBoundary.failRead (bsCachePath "b") = false ∧
    (86400 : Int) - 0 ≤ 86400 ∧
    bsLoadCache fsBoundary "b" 86400 = none := by
  refine ⟨rfl, rfl, by norm_num, rfl⟩

/-- C2 (amended): a trial.py cache get returns the stored payload
exactly when `now - stored_at <= ttl_seconds`; the barcodescanner.py
cache get returns it exactly when `now - stored_at < 86400` (strict —
an entry exactly TTL-old is treated as absent).  In both caches an
expired entry yields the miss result regardless of payload content. -/
theorem c2_ttl_validity (fs : FS) (key src bc : String) (now maxAge : Int)
    (f g : CacheFile)
    (h1 : dLookup (cachePath key src) fs.files = some f)
    (h2 : fs.failRead (cachePath key src) = false)
    (h3 : dLookup (bsCachePath bc) fs.files = some g)
    (h4 : fs.failRead (bsCachePath bc) = false) :
    (loadCache fs key src now maxAge = some f.payload ↔ now - f.storedAt ≤ maxAge) ∧
    (bsLoadCache fs bc now = some g.payload ↔ now - g.storedAt < 86400) := by
  constructor
  · by_cases hv : now - f.storedAt ≤ maxAge <;>
      simp [loadCache, loadCacheBody, h1, h2, hv]
  · by_cases hv : now - g.storedAt < 86400 <;>
      simp [bsLoadCache, bsLoadCacheBody, h3, h4, hv]

/-- Healthy two-entry directory used to witness the amended C2. -/
def fsTwo : FS := ⟨[("off_k", ⟨.vStr "p", 0⟩), ("bs_off_b", ⟨.vStr "q", 0⟩)],
  fun _ => false, fun _ => false⟩

theorem c2_ttl_validity_witness :
    loadCache fsTwo "k" "off" 86400 86400 = some (.vStr "p") ∧
    bsLoadCache fsTwo "b" 86399 = some (.vStr "q") :=
  ⟨(c2_ttl_validity fsTwo "k" "off" "b" 86400 86400 ⟨.vStr "p", 0⟩ ⟨.vStr "q", 0⟩
      rfl rfl rfl rfl).1.mpr (by norm_num),
   (c2_ttl_validity fsTwo "k" "off" "b" 86399 86400 ⟨.vStr "p", 0⟩ ⟨.vStr "q", 0⟩
      rfl rfl rfl rfl).2.mpr (by norm_num)⟩

/-- C1 (counterexample): a resolved record with a single populated
nutrient key (`sugars_100g = 2`), enriched with a supplementary USDA
lookup that also reports `sugars_100g` (= 5, as produced by the
`fetch_nutrition` mapping): the merge (`dict.update`) overwrites the
already-present key with the USDA value, contradicting the claim that
existing keys are never changed. -/
def productC1 : List (String × PyVal) :=
  [("name", .vStr "Kettle Chips"),
   ("nutrients", .vDict [("sugars_100g", .vNum 2)])]

def usdaC1 : List (String × PyVal) :=
  fetchNutritionMap
    [.vDict [("nutrientName", .vStr "Sugars, total including NLEA"),
             ("value", .vNum 5), ("unitName", .vStr "G")],
     .vDict [("nutrientName", .vStr "Protein"),
             ("value", .vNum 3), ("unitName", .vStr "G")]]

theorem c1_counterexample :
    (productNutrients productC1).length < 3 ∧
    dLookup "sugars_100g" (productNutrients productC1) = some (.vNum 2) ∧
    dLookup "sugars_100g" (productNutrients (enrichProduct productC1 usdaC1)) =
      some (.vNum 5) ∧
    PyVal.vNum 5 ≠ PyVal.vNum 2 := by
  refine ⟨by decide, rfl, rfl, ?_⟩
  intro h
  injection h with h1
  norm_num at h1

/-- C1 (amended): for a resolved record whose nutrient dict has fewer
than 3 keys, the enrichment merge has Python `dict.update` semantics:
for every key the merged value is the supplementary value when the
supplementary lookup provides that key (overwriting any value already
present), and the original value otherwise; keys absent from both stay
absent. -/
theorem c1_enrich_update_semantics (product usdaN : List (String × PyVal))
    (d : List (String × PyVal)) (k : String)
    (hd : dLookup "nutrients" product = some (.vDict d))
    (hlen : d.length < 3)
    (hne : usdaN ≠ [])
    (hnd : (usdaN.map Prod.fst).Nodup) :
    dLookup k (productNutrients (enrichProduct product usdaN)) =
      (dLookup k usdaN).or (dLookup k d) := by
  have he : enrichProduct product usdaN =
      dictSet product "nutrients" (.vDict (dictUpdate d usdaN)) := by
    unfold enrichProduct
    simp [hd, dGetD, hlen, hne]
  rw [he]
  simp [productNutrients, dLookup_dictSet, dLookup_dictUpdate usdaN d k hnd]

theorem c1_enrich_update_semantics_witness :
    dLookup "sugars_100g"
      (productNutrients (enrichProduct productC1 [("sugars_100g", PyVal.vNum 5)])) =
      some (.vNum 5) := by
  have h := c1_enrich_update_semantics productC1 [("sugars_100g", PyVal.vNum 5)]
    [("sugars_100g", PyVal.vNum 2)] "sugars_100g" rfl (by norm_num)
    (by simp) (by simp)
  rw [h]
  rfl

/-- C4 (counterexample): when a source call fails on all three
attempts, the sleeps actually performed between attempts are 1s and 2s
only — not the claimed 1s, 2s, 3s schedule (the third failure is
re-raised immediately, with no sleep). -/
theorem c4_counterexample :
    (dfGet (fun _ => .error "timeout") 0).2.2 = [1, 2] ∧
    ([1, 2] : List Nat) ≠ [1, 2, 3] := by
  refine ⟨rfl, by simp⟩

/-- C4 (amended): each source call makes up to 3 attempts with backoff
1s then 2s between consecutive attempts (no sleep after the final
failure); when both sources fail on every attempt and nothing is
cached, `process_barcode` reports NotFound after exactly 3 attempts per
source (6 network requests in total), without raising an exception and
without touching the cache. -/
theorem c4_retry_exhaustion (net : Nat → Except String PyVal) (c : Nat) (fs : FS)
    (bc : String) (now : Int)
    (hnet : ∀ n, ∃ e, net n = .error e)
    (hoff : dLookup (cachePath bc "off") fs.files = none)
    (husda : dLookup (cachePath bc "usda") fs.files = none) :
    processBarcode net c fs bc now = (.ok none, c + 6, fs) ∧
    (dfGet net c).2.2 = [1, 2] := by
  obtain ⟨e0, h0⟩ := hnet c
  obtain ⟨e1, h1⟩ := hnet (c + 1)
  obtain ⟨e2, h2⟩ := hnet (c + 2)
  obtain ⟨e3, h3⟩ := hnet (c + 3)
  obtain ⟨e4, h4⟩ := hnet (c + 3 + 1)
  obtain ⟨e5, h5⟩ := hnet (c + 3 + 2)
  have hdf1 : dfGet net c = (.error e2, c + 3, [1, 2]) := by
    unfold dfGet
    rw [h0, h1, h2]
  have hdf2 : dfGet net (c + 3) = (.error e5, c + 3 + 3, [1, 2]) := by
    unfold dfGet
    rw [h3, h4, h5]
  have hadd : c + 3 + 3 = c + 6 := by omega
  rw [hadd] at hdf2
  have hloadOff : loadCache fs bc "off" now 86400 = none := by
    simp [loadCache, loadCacheBody, hoff]
  have hloadUsda : loadCache fs bc "usda" now 86400 = none := by
    simp [loadCache, loadCacheBody, husda]
  constructor
  · simp only [processBarcode, fetchOFF, fetchOFFNet, fetchUSDA, fetchUSDANet,
      hloadOff, hloadUsda, hdf1, hdf2]
    simp [noneTuple, pyFalsy, pyTruthy]
  · rw [hdf1]

theorem c4_retry_exhaustion_witness :
    processBarcode (fun _ => Except.error "timeout") 0 fsEmpty "000" 0 =
      (.ok none, 6, fsEmpty) := by
  have h := c4_retry_exhaustion (fun _ => Except.error "timeout") 0 fsEmpty "000" 0
    (fun n => ⟨"timeout", rfl⟩) rfl rfl
  exact h.1

/-- C5: when the primary source reports the item absent or fails (a
falsy product name), the resolver consults the secondary source and
returns exactly its outcome: NotFound when the secondary also yields a
falsy name, and the secondary-derived record otherwise — it never
synthesizes any other record. -/
theorem c5_secondary_fallback (net : Nat → Except String PyVal) (c : Nat) (fs : FS)
    (bc : String) (now : Int) (t : FetchTuple) (c1 : Nat) (fs1 : FS)
    (u : FetchTuple) (c2 : Nat) (fs2 : FS)
    (hoff : fetchOFF net c fs bc now = (.ok t, c1, fs1))
    (hmiss : pyFalsy t.pname = true)
    (husda : fetchUSDA net c1 fs1 bc now = (u, c2, fs2)) :
    (pyFalsy u.pname = true →
       processBarcode net c fs bc now = (.ok none, c2, fs2)) ∧
    (pyFalsy u.pname = false →
       processBarcode net c fs bc now = (.ok (some (buildProductObj u bc)), c2, fs2)) := by
  constructor <;> intro hu <;> simp [processBarcode, hoff, hmiss, husda, hu]

theorem c5_secondary_fallback_witness :
    processBarcode (fun _ => Except.error "down") 0 fsEmpty "42" 0 =
      (.ok none, 6, fsEmpty) := by
  have h := c5_secondary_fallback (fun _ => Except.error "down") 0 fsEmpty "42" 0
    noneTuple 3 fsEmpty noneTuple 6 fsEmpty rfl rfl rfl
  exact h.1 rfl

/-- The keys of a dict-shaped record. -/
def pyKeys : PyVal → List String
  | .vDict d => d.map Prod.fst
  | _ => []

/-- Projection used to observe a resolved record: `some (lookup k)`
when the resolution produced a dict record, `none` otherwise. -/
def resolvedKey (k : String) (x : Except String (Option PyVal) × Nat × FS) :
    Option (Option PyVal) :=
  match x.1 with
  | .ok (some (.vDict d)) => some (dLookup k d)
  | _ => none

/-- A network on which the primary source answers every request with a
structurally successful product response. -/
def net6 : Nat → Except String PyVal := fun _ =>
  .ok (.vDict [("status", .vNum 1),
               ("product", .vDict [("product_name", .vStr "Kettle Chips")])])

/-- C6 (counterexample): a barcode resolved successfully from the
primary source (the record carries the primary response's product
name), yet the returned record has no `source` key at all — the code
never writes a `source` field, so it cannot equal any source
identifier. -/
theorem c6_counterexample :
    resolvedKey "product_name" (processBarcode net6 0 fsEmpty "737628064502" 0) =
      some (some (.vStr "Kettle Chips")) ∧
    resolvedKey "source" (processBarcode net6 0 fsEmpty "737628064502" 0) =
      some none := ⟨rfl, rfl⟩

/-- C6 (amended): every record returned by a successful resolution
(from either source) has exactly the keys `product_name`, `brand_name`,
`category`, `origin`, `details`, `image_url`, `allergens`, `barcode` —
in particular it carries no `source` field; which upstream provider
produced it is only implicit in the shape of `details`. -/
theorem c6_no_source_field (net : Nat → Except String PyVal) (c : Nat) (fs : FS)
    (bc : String) (now : Int) (rec : PyVal)
    (h : (processBarcode net c fs bc now).1 = .ok (some rec)) :
    pyKeys rec = ["product_name", "brand_name", "category", "origin",
                  "details", "image_url", "allergens", "barcode"] ∧
    "source" ∉ pyKeys rec := by
  have hb : ∃ t : FetchTuple, rec = buildProductObj t bc := by
    unfold processBarcode at h
    rcases hr : (fetchOFF net c fs bc now) with ⟨rt, rc, rfs⟩
    rw [hr] at h
    cases rt with
    | error e => simp at h
    | ok t =>
        by_cases hp : pyFalsy t.pname = true
        · simp only [hp, if_true] at h
          rcases hu : (fetchUSDA net rc rfs bc now) with ⟨ut, uc, ufs⟩
          rw [hu] at h
          by_cases hup : pyFalsy ut.pname = true
          · simp [hup] at h
          · simp only [hup, Bool.false_eq_true, if_false] at h
            simp at h
            exact ⟨ut, h.symm⟩
        · simp only [Bool.not_eq_true] at hp
          simp only [hp, Bool.false_eq_true, if_false] at h
          simp at h
          exact ⟨t, h.symm⟩
  obtain ⟨t, rfl⟩ := hb
  have hk : pyKeys (buildProductObj t bc) =
      ["product_name", "brand_name", "category", "origin",
       "details", "image_url", "allergens", "barcode"] := rfl
  constructor
  · exact hk
  · rw [hk]
    decide

/-- The record produced by the concrete successful primary resolution
of `net6`, extracted from the resolver run itself. -/
def recW6 : PyVal :=
  match (processBarcode net6 0 fsEmpty "737628064502" 0).1 with
  | .ok (some r) => r
  | _ => .vNone

theorem c6_no_source_field_witness :
    pyKeys recW6 = ["product_name", "brand_name", "category", "origin",
                    "details", "image_url", "allergens", "barcode"] ∧
    "source" ∉ pyKeys recW6 :=
  c6_no_source_field net6 0 fsEmpty "737628064502" 0 recW6 rfl

/-- The combined USDA payload of an earlier successful secondary-source
resolution of barcode 123. -/
def combC7 : PyVal :=
  .vDict [("search_result",
            .vDict [("foods", .vList [.vDict [("description", .vStr "Choc"),
                                              ("fdcId", .vNum 7)]])]),
          ("detail", .vDict [])]

/-- Cache directory holding only that fresh USDA entry. -/
def fsU7 : FS := ⟨[(cachePath "123" "usda", ⟨combC7, 0⟩)],
  fun _ => false, fun _ => false⟩

/-- Primary source answering `{status: 0}` (item absent). -/
def netC7 : Nat → Except String PyVal := fun _ => .ok (.vDict [("status", .vNum 0)])

/-- C7 (counterexample): barcode 123 was resolved via the secondary
source and its result is cached and fresh, yet a repeat resolution
still performs one network request (to the primary source, whose
misses are never cached) — not zero. -/
theorem c7_counterexample :
    dLookup (cachePath "123" "usda") fsU7.files = some ⟨combC7, 0⟩ ∧
    (processBarcode netC7 0 fsU7 "123" 5).2.1 = 1 ∧
    (1 : Nat) ≠ 0 ∧
    resolvedKey "product_name" (processBarcode netC7 0 fsU7 "123" 5) =
      some (some (.vStr "Choc")) := by
  refine ⟨rfl, rfl, by decide, rfl⟩

/-- C7 (amended): when the primary-source response for a barcode is
cached, fresh, truthy, and extracts to a record with a truthy name, a
repeat resolution consults the cache first, performs zero network
requests, leaves the cache unchanged, and returns the cached-derived
record.  (A record resolved via the secondary source is cached only
under the USDA namespace, and a repeat resolution still issues a
primary-source network request — see the counterexample.) -/
theorem c7_cached_primary_zero_network (net : Nat → Except String PyVal) (c : Nat)
    (fs : FS) (bc : String) (now : Int) (v : PyVal) (t : FetchTuple)
    (hc : loadCache fs bc "off" now 86400 = some v)
    (ht : pyTruthy v = true)
    (he : extractOff v = .ok t)
    (hp : pyFalsy t.pname = false) :
    processBarcode net c fs bc now = (.ok (some (buildProductObj t bc)), c, fs) := by
  simp [processBarcode, fetchOFF, hc, ht, he, hp]

/-- A fresh cached primary response for barcode 737628064502. -/
def offData7 : PyVal :=
  .vDict [("status", .vNum 1),
          ("product", .vDict [("product_name", .vStr "Kettle Chips")])]

def fsO7 : FS := ⟨[(cachePath "737628064502" "off", ⟨offData7, 0⟩)],
  fun _ => false, fun _ => false⟩

/-- The tuple extracted from that cached response. -/
def tW7 : FetchTuple :=
  match extractOff offData7 with
  | .ok t => t
  | .error _ => noneTuple

theorem c7_cached_primary_zero_network_witness :
    processBarcode (fun _ => Except.error "net down") 0 fsO7 "737628064502" 100 =
      (.ok (some (buildProductObj tW7 "737628064502")), 0, fsO7) :=
  c7_cached_primary_zero_network (fun _ => Except.error "net down") 0 fsO7
    "737628064502" 100 offData7 tW7 rfl rfl rfl rfl

/-- Primary source answering `{status: 1}` with no `product` payload. -/
def net9 : Nat → Except String PyVal := fun _ => .ok (.vDict [("status", .vNum 1)])

/-- C9 (counterexample): a primary response `{status: 1}` without the
`product` payload is a malformed body — the lookup fails (it returns
the `(None,)*7` failure tuple because extraction raises) — and yet the
response is written to the cache: `_save_cache` runs before
`_extract_off`, so the cache state changes on a failed lookup. -/
theorem c9_counterexample :
    (fetchOFF net9 0 fsEmpty "123" 5).1 = .ok noneTuple ∧
    pyFalsy noneTuple.pname = true ∧
    fsEmpty.files = [] ∧
    (fetchOFF net9 0 fsEmpty "123" 5).2.2.files =
      [(cachePath "123" "off", ⟨.vDict [("status", .vNum 1)], 5⟩)] := by
  refine ⟨rfl, rfl, rfl, rfl⟩

/-- C9 (amended): the primary fetch writes nothing to the cache when
the request fails (retries exhausted) or when the body's `status` is
not 1 (item absent or malformed status); only a body passing the
`status == 1` check is cached — and it is cached even if its extraction
then fails (see the counterexample). -/
theorem c9_no_cache_write_on_miss (net : Nat → Except String PyVal) (c : Nat)
    (fs : FS) (bc : String) (now : Int) :
    (∀ e c1 s, dfGet net c = (.error e, c1, s) →
       (fetchOFFNet net c fs bc now).2.2 = fs) ∧
    (∀ data c1 s, dfGet net c = (.ok data, c1, s) →
       (match data with | .vDict d => statusIsOne d | _ => false) = false →
       (fetchOFFNet net c fs bc now).2.2 = fs) := by
  constructor
  · intro e c1 s h
    simp [fetchOFFNet, h]
  · intro data c1 s h hs
    cases data <;> simp_all [fetchOFFNet]

theorem c9_no_cache_write_on_miss_witness :
    (fetchOFFNet (fun _ => Except.error "down") 0 fsEmpty "1" 0).2.2 = fsEmpty ∧
    (fetchOFFNet (fun _ => Except.ok (.vDict [("status", .vNum 0)])) 0 fsEmpty "1" 0).2.2
      = fsEmpty :=
  ⟨(c9_no_cache_write_on_miss (fun _ => Except.error "down") 0 fsEmpty "1" 0).1
      "down" 3 [1, 2] rfl,
   (c9_no_cache_write_on_miss (fun _ => Except.ok (.vDict [("status", .vNum 0)]))
      0 fsEmpty "1" 0).2 (.vDict [("status", .vNum 0)]) 1 [] rfl rfl⟩
